import Mathlib

/-!
Shallow embedding of the inventory-management dashboard's analytics and
report-generation logic, together with theorems checking the natural-language
specification against it.

Numeric conventions: JavaScript integer-valued quantities (item quantities,
reorder points, derived metrics, counts) are modelled as `Int`; monetary
values (prices, revenue) as `ℚ`.  Strings (ids, names, SKUs, dates) are kept
as `String`.
-/

namespace Inventory

/-- An inventory item as stored in the `items` collection. -/
structure Item where
  id : String
  name : String
  sku : String
  categoryId : String
  quantity : Int
  price : ℚ
  supplierName : String
  reorderPoint : Int
  averageDailySales : Int
  leadTimeDays : Int
deriving Repr, DecidableEq

/-- A category as stored in the `categories` collection. -/
structure Category where
  id : String
  name : String
  description : Option String
  itemCount : Int
deriving Repr, DecidableEq

/-- A sold-item ledger record as stored in the `soldItems` collection. -/
structure SoldItem where
  id : String
  itemId : String
  name : String
  sku : String
  quantitySold : Int
  price : ℚ
  dateSold : String
deriving Repr, DecidableEq

/-- The whole persisted application state: the three stored collections. -/
structure AppState where
  items : List Item
  categories : List Category
  soldItems : List SoldItem
deriving Repr, DecidableEq

/-- The character codes of a string, as summed by
`sku.split('').reduce((acc, char) => acc + char.charCodeAt(0), 0)`.
For the BMP code points occurring in SKUs, `Char.toNat` agrees with the
JavaScript UTF-16 code-unit value. -/
def charCodes (s : String) : List Int := s.toList.map (fun c => (c.toNat : Int))

/-- The integer seed derived from a SKU: the sum of its character codes
(`getDeterministicItemData`, items page and dashboard page). -/
def skuSeed (sku : String) : Int :=
  (charCodes sku).foldl (fun acc c => acc + c) 0

/-- `getDeterministicItemData` (items page / dashboard page): the derived
pair `(averageDailySales, leadTimeDays) = (seed % 19 + 1, seed % 9 + 2)`. -/
def getDeterministicItemData (sku : String) : Int × Int :=
  (skuSeed sku % 19 + 1, skuSeed sku % 9 + 2)

/-- One entry of the stock-alert AI input (`alertInput.lowStockItems`
built in `AIAlert.fetchAlert`). -/
structure AlertRow where
  itemId : String
  itemName : String
  currentQuantity : Int
  reorderPoint : Int
  averageDailySales : Int
  sellingPrice : ℚ
  supplierName : String
  leadTimeDays : Int
deriving Repr, DecidableEq

/-- The per-item mapping performed in `AIAlert.fetchAlert` when building
the AI request. -/
def toAlertRow (i : Item) : AlertRow :=
  { itemId := i.id
    itemName := i.name
    currentQuantity := i.quantity
    reorderPoint := i.reorderPoint
    averageDailySales := i.averageDailySales
    sellingPrice := i.price
    supplierName := i.supplierName
    leadTimeDays := i.leadTimeDays }

/-- `lowStockItems` on the items page:
`items.filter((item) => item.quantity <= item.reorderPoint)`.
This is the list handed to the `AIAlert` component. -/
def itemsPageLowStockItems (items : List Item) : List Item :=
  items.filter (fun i => decide (i.quantity ≤ i.reorderPoint))

/-- The full AI stock-alert input: the items-page low-stock list mapped
to alert rows (`AIAlert.fetchAlert`). -/
def stockAlertInput (items : List Item) : List AlertRow :=
  (itemsPageLowStockItems items).map toAlertRow

/-- `lowStockItemsCount` on the dashboard page:
`items.filter(item => item.quantity === 0).length` (the low-stock badge). -/
def dashboardLowStockCount (items : List Item) : Nat :=
  (items.filter (fun i => decide (i.quantity = 0))).length

/-- The UI state of an AI-backed component: the last result, the loading
flag and the currently displayed error message. -/
structure AIViewState (α : Type) where
  result : Option α
  isLoading : Bool
  error : Option String
deriving Repr, DecidableEq

/-- The outcome of one invocation of a fetch callback: the resulting view
state, whether the external analysis call was made, and the delays (in
milliseconds) of any retries scheduled with setTimeout. -/
structure FetchStep (α : Type) where
  state : AIViewState α
  callMade : Bool
  scheduledRetryDelaysMs : List Nat
deriving Repr, DecidableEq

/-- JavaScript `hay.includes(sub)`: substring containment. -/
def containsSubstring (hay sub : String) : Bool :=
  hay.toList.tails.any (fun t => sub.toList.isPrefixOf t)

/-- The transient-failure test in `AIAlert.fetchAlert`:
`errorMessage.includes('429') || errorMessage.includes('503')`. -/
def alertTransient (msg : String) : Bool :=
  containsSubstring msg "429" || containsSubstring msg "503"

/-- The transient-failure test in `AIHealthReport.fetchReport`:
`e.message?.includes('503')` only. -/
def healthTransient (msg : String) : Bool :=
  containsSubstring msg "503"

/-- The retrying error message set by `AIAlert.fetchAlert`. -/
def alertRetryingMessage : String :=
  "The AI service is currently busy. Retrying automatically..."

/-- The generic error message set by `AIAlert.fetchAlert`. -/
def alertGenericMessage : String :=
  "An unexpected error occurred with the AI service."

/-- The retrying error message set by `AIHealthReport.fetchReport`. -/
def healthRetryingMessage : String :=
  "The AI service is currently busy. It will automatically retry in a few seconds."

/-- The generic error message set by `AIHealthReport.fetchReport`. -/
def healthGenericMessage : String :=
  "There was an issue with the AI service. Please try again later."

/-- `AIAlert.fetchAlert`: empty input skips the external call and clears
alert and error; success stores the result; a failure whose message contains
'429' or '503' shows the retrying message and schedules one retry after
5000 ms; any other failure shows the generic message with no retry.  The
external call itself is abstracted as an `Except` result. -/
def fetchAlert {α : Type} (lowStockItems : List Item)
    (svc : Except String α) (s : AIViewState α) : FetchStep α :=
  if lowStockItems.isEmpty then
    { state := { result := none, isLoading := false, error := none }
      callMade := false
      scheduledRetryDelaysMs := [] }
  else
    match svc with
    | Except.ok r =>
        { state := { result := some r, isLoading := false, error := none }
          callMade := true
          scheduledRetryDelaysMs := [] }
    | Except.error msg =>
        if alertTransient msg then
          { state := { result := s.result, isLoading := false
                       error := some alertRetryingMessage }
            callMade := true
            scheduledRetryDelaysMs := [5000] }
        else
          { state := { result := s.result, isLoading := false
                       error := some alertGenericMessage }
            callMade := true
            scheduledRetryDelaysMs := [] }

/-- `AIHealthReport.fetchReport`: same shape as `fetchAlert`, but only a
message containing '503' is classified as transient. -/
def fetchReport {α : Type} (allItems : List Item)
    (svc : Except String α) (s : AIViewState α) : FetchStep α :=
  if allItems.isEmpty then
    { state := { result := none, isLoading := false, error := none }
      callMade := false
      scheduledRetryDelaysMs := [] }
  else
    match svc with
    | Except.ok r =>
        { state := { result := some r, isLoading := false, error := none }
          callMade := true
          scheduledRetryDelaysMs := [] }
    | Except.error msg =>
        if healthTransient msg then
          { state := { result := s.result, isLoading := false
                       error := some healthRetryingMessage }
            callMade := true
            scheduledRetryDelaysMs := [5000] }
        else
          { state := { result := s.result, isLoading := false
                       error := some healthGenericMessage }
            callMade := true
            scheduledRetryDelaysMs := [] }

/-- `handleSellItem` (items page): decrement the sold item's quantity and
append one `SoldItem` record snapshotting quantity sold and unit price.
The generated transaction id and the sale timestamp are parameters. -/
def handleSellItem (s : AppState) (itemToSell : Item) (quantitySold : Int)
    (newId dateSold : String) : AppState :=
  { s with
    items := s.items.map (fun item =>
      if item.id = itemToSell.id then
        { item with quantity := item.quantity - quantitySold }
      else item)
    soldItems := s.soldItems ++ [{
      id := newId
      itemId := itemToSell.id
      name := itemToSell.name
      sku := itemToSell.sku
      quantitySold := quantitySold
      price := itemToSell.price
      dateSold := dateSold }] }

/-- `handleEditItem` (items page): replace the item with the matching id. -/
def handleEditItem (s : AppState) (updatedItem : Item) : AppState :=
  { s with
    items := s.items.map (fun item =>
      if item.id = updatedItem.id then updatedItem else item) }

/-- `handleDeleteItem` (items page): remove the item and, when it was found,
decrement the owning category's itemCount with `Math.max(0, count - 1)`. -/
def handleDeleteItem (s : AppState) (itemId : String) : AppState :=
  match s.items.find? (fun item => decide (item.id = itemId)) with
  | some itemToDelete =>
      { items := s.items.filter (fun item => decide (item.id ≠ itemId))
        categories := s.categories.map (fun cat =>
          if cat.id = itemToDelete.categoryId then
            { cat with itemCount := max 0 (cat.itemCount - 1) }
          else cat)
        soldItems := s.soldItems }
  | none =>
      { s with items := s.items.filter (fun item => decide (item.id ≠ itemId)) }

/-- The values collected by the item form (no id, no derived metrics). -/
structure ItemFormValues where
  name : String
  sku : String
  categoryId : String
  quantity : Int
  price : ℚ
  reorderPoint : Int
  supplierName : String
deriving Repr, DecidableEq

/-- `ItemForm.onSubmit` in edit mode calls `onEditItem({ ...item, ...values })`:
every form field is replaced, while `id` and the derived metrics
`averageDailySales` / `leadTimeDays` are carried over from the old item. -/
def itemFormEditResult (item : Item) (v : ItemFormValues) : Item :=
  { id := item.id
    name := v.name
    sku := v.sku
    categoryId := v.categoryId
    quantity := v.quantity
    price := v.price
    supplierName := v.supplierName
    reorderPoint := v.reorderPoint
    averageDailySales := item.averageDailySales
    leadTimeDays := item.leadTimeDays }

/-- `handleAddItem` (items page): derive the metrics from the new SKU,
append the new item, and increment the owning category's itemCount. -/
def handleAddItem (s : AppState) (v : ItemFormValues) (newId : String) : AppState :=
  { s with
    items := s.items ++ [{
      id := newId
      name := v.name
      sku := v.sku
      categoryId := v.categoryId
      quantity := v.quantity
      price := v.price
      supplierName := v.supplierName
      reorderPoint := v.reorderPoint
      averageDailySales := (getDeterministicItemData v.sku).1
      leadTimeDays := (getDeterministicItemData v.sku).2 }]
    categories := s.categories.map (fun cat =>
      if cat.id = v.categoryId then { cat with itemCount := cat.itemCount + 1 }
      else cat) }

/-- The dashboard page load path recomputes the derived metrics from the
current SKU for every loaded item (`getDeterministicItemData` applied in
the dashboard's load effect). -/
def dashboardLoadItem (i : Item) : Item :=
  { i with
    averageDailySales := (getDeterministicItemData i.sku).1
    leadTimeDays := (getDeterministicItemData i.sku).2 }

/-- The dashboard page maps the recomputation over all loaded items. -/
def dashboardLoadItems (items : List Item) : List Item :=
  items.map dashboardLoadItem

/-- The items page load path stores the loaded items verbatim
(`setItems(getItems())`), with no recomputation of derived metrics. -/
def itemsPageLoadItems (items : List Item) : List Item := items

/-- `chartData` in the dashboard `StockChart`:
`items.slice(0, 10).map(item => ({name, quantity}))` — the first ten items
in insertion order, with no sorting. -/
def stockChartData (items : List Item) : List (String × Int) :=
  (items.take 10).map (fun i => (i.name, i.quantity))

/-- One step of the stable descending insertion modelling the JavaScript
stable `sort((a, b) => b.quantity - a.quantity)`: an element is placed
before the first element whose quantity is not strictly larger, so equal
quantities keep their original relative order. -/
def insertByQuantityDesc (i : Item) : List Item → List Item
  | [] => [i]
  | j :: rest =>
      if i.quantity < j.quantity then j :: insertByQuantityDesc i rest
      else i :: j :: rest

/-- Stable sort of the items by descending quantity, the model of
`[...items].sort((a, b) => b.quantity - a.quantity)`. -/
def sortByQuantityDesc (items : List Item) : List Item :=
  items.foldr insertByQuantityDesc []

/-- `chartData` in `exportConsolidatedPDF`:
`[...items].sort((a, b) => b.quantity - a.quantity).slice(0, 10)`. -/
def consolidatedChartData (items : List Item) : List Item :=
  (sortByQuantityDesc items).take 10

/-- Modelled from the spec: one insertion step of sorting the indexed items
by the lexicographic key (quantity descending, insertion index ascending). -/
def insertLexDesc (p : Nat × Item) : List (Nat × Item) → List (Nat × Item)
  | [] => [p]
  | q :: rest =>
      if p.2.quantity < q.2.quantity ∨
          (p.2.quantity = q.2.quantity ∧ q.1 < p.1) then
        q :: insertLexDesc p rest
      else p :: q :: rest

/-- Modelled from the spec: `topNByQuantity(items, n)` — sort descending by
quantity with ties broken by original insertion order (realised by sorting
the index-tagged items by the total lexicographic key), then truncate to n. -/
def topNByQuantity (items : List Item) (n : Nat) : List Item :=
  ((items.enum.foldr insertLexDesc []).map Prod.snd).take n

/-- `totalValue` on the dashboard page:
`items.reduce((sum, item) => sum + item.quantity * item.price, 0)`. -/
def totalValue (items : List Item) : ℚ :=
  items.foldl (fun sum i => sum + (i.quantity : ℚ) * i.price) 0

/-- `totalRevenue` on the reports page:
`soldItems.reduce((sum, item) => sum + item.price * item.quantitySold, 0)`. -/
def totalRevenue (soldItems : List SoldItem) : ℚ :=
  soldItems.foldl (fun sum r => sum + r.price * (r.quantitySold : ℚ)) 0

/-- A spreadsheet cell: either a string or a numeric value. -/
inductive Cell where
  | str : String → Cell
  | num : ℚ → Cell
deriving Repr, DecidableEq

/-- A worksheet row. -/
abbrev Row := List Cell

/-- A worksheet: a list of rows. -/
abbrev Sheet := List Row

/-- `XLSX.utils.json_to_sheet`: a header row built from the record keys
followed by one row per record; an empty record list yields an empty sheet. -/
def jsonToSheet (records : List (List (String × Cell))) : Sheet :=
  match records with
  | [] => []
  | r :: _ =>
      (r.map (fun p => Cell.str p.1)) :: records.map (fun rec => rec.map Prod.snd)

/-- `XLSX.utils.sheet_add_aoa(ws, aoa, { origin: -1 })`: append the given
rows after the sheet's existing rows. -/
def sheetAddAoa (ws : Sheet) (aoa : List Row) : Sheet := ws ++ aoa

/-- Category-name lookup used by the export code:
`categories.find(c => c.id === item.categoryId)?.name || 'N/A'`. -/
def categoryName (cats : List Category) (cid : String) : String :=
  match cats.find? (fun c => decide (c.id = cid)) with
  | some c => c.name
  | none => "N/A"

/-- `lowStockItems` on the reports page: `items.filter(item => item.quantity === 0)`. -/
def reportsLowStockItems (items : List Item) : List Item :=
  items.filter (fun i => decide (i.quantity = 0))

/-- `inStockItems` on the reports page: `items.filter(item => item.quantity > 0)`. -/
def reportsInStockItems (items : List Item) : List Item :=
  items.filter (fun i => decide (0 < i.quantity))

/-- One record of the consolidated export's Low Stock Items sheet. -/
def lowStockRecord (i : Item) : List (String × Cell) :=
  [("Name", Cell.str i.name), ("SKU", Cell.str i.sku),
   ("Quantity", Cell.num (i.quantity : ℚ)),
   ("Re-order Point", Cell.num (i.reorderPoint : ℚ)),
   ("Supplier Name", Cell.str i.supplierName)]

/-- One record of the consolidated export's Full Inventory sheet. -/
def fullInventoryRecord (cats : List Category) (i : Item) : List (String × Cell) :=
  [("Name", Cell.str i.name), ("SKU", Cell.str i.sku),
   ("Category", Cell.str (categoryName cats i.categoryId)),
   ("Quantity", Cell.num (i.quantity : ℚ)), ("Price", Cell.num i.price),
   ("Re-order Point", Cell.num (i.reorderPoint : ℚ)),
   ("Supplier Name", Cell.str i.supplierName)]

/-- One record of the consolidated export's In-Stock Items sheet. -/
def inStockRecord (cats : List Category) (i : Item) : List (String × Cell) :=
  [("Name", Cell.str i.name), ("SKU", Cell.str i.sku),
   ("Category", Cell.str (categoryName cats i.categoryId)),
   ("Quantity", Cell.num (i.quantity : ℚ)), ("Price", Cell.num i.price)]

/-- One record of the consolidated export's Sold Items sheet; the date
formatting is modelled as the stored date string. -/
def soldRecord (r : SoldItem) : List (String × Cell) :=
  [("Item Name", Cell.str r.name), ("SKU", Cell.str r.sku),
   ("Quantity Sold", Cell.num (r.quantitySold : ℚ)),
   ("Price per Item", Cell.num r.price),
   ("Total Revenue", Cell.num (r.price * (r.quantitySold : ℚ))),
   ("Date Sold", Cell.str r.dateSold)]

/-- One record of the consolidated export's Categories sheet. -/
def categoryRecord (c : Category) : List (String × Cell) :=
  [("Name", Cell.str c.name),
   ("Description", Cell.str (c.description.getD "N/A")),
   ("Item Count", Cell.num (c.itemCount : ℚ))]

/-- The summary row appended to the Sold Items sheet:
`["", "", "", "Total Revenue", totalRevenue]`. -/
def soldItemsSummaryRow (soldItems : List SoldItem) : Row :=
  [Cell.str "", Cell.str "", Cell.str "", Cell.str "Total Revenue",
   Cell.num (totalRevenue soldItems)]

/-- `exportConsolidatedExcel` (reports page): the five-sheet workbook, in
order, with the Sold Items sheet carrying the trailing summary row. -/
def exportConsolidatedExcel (items : List Item) (categories : List Category)
    (soldItems : List SoldItem) : List (String × Sheet) :=
  [("Low Stock Items", jsonToSheet ((reportsLowStockItems items).map lowStockRecord)),
   ("Full Inventory", jsonToSheet (items.map (fullInventoryRecord categories))),
   ("In-Stock Items", jsonToSheet ((reportsInStockItems items).map (inStockRecord categories))),
   ("Sold Items",
     sheetAddAoa (jsonToSheet (soldItems.map soldRecord)) [soldItemsSummaryRow soldItems]),
   ("Categories", jsonToSheet (categories.map categoryRecord))]

/-- A sample in-stock item used by concrete counterexamples and witnesses:
its quantity (1) is positive but not above the reorder point (5). -/
def sampleItem : Item :=
  { id := "i1"
    name := "Widget"
    sku := "A"
    categoryId := "c1"
    quantity := 1
    price := 10
    supplierName := "Acme"
    reorderPoint := 5
    averageDailySales := 9
    leadTimeDays := 4 }

/-- A sample category whose itemCount is already 0. -/
def sampleCategory : Category :=
  { id := "c1", name := "Gadgets", description := none, itemCount := 0 }

/-- A fresh view state (loading, no result, no error). -/
def initialViewState : AIViewState Unit :=
  { result := none, isLoading := true, error := none }

/-- A failure message carrying an explicit rate-limit signal. -/
def rateLimitMessage : String := "429 Too Many Requests"

/-- The form values used to create the item of the C6 scenario (SKU "A"). -/
def c6AddValues : ItemFormValues :=
  { name := "Widget"
    sku := "A"
    categoryId := "c1"
    quantity := 5
    price := 10
    reorderPoint := 2
    supplierName := "Acme" }

/-- The form values of the C6 edit: the same item with its SKU changed to "B". -/
def c6EditValues : ItemFormValues := { c6AddValues with sku := "B" }

/-- The C6 scenario state after adding the item with SKU "A". -/
def c6StateAfterAdd : AppState :=
  handleAddItem { items := [], categories := [sampleCategory], soldItems := [] }
    c6AddValues "i1"

/-- The item stored by the C6 add: metrics derived from SKU "A"
(seed 65, averageDailySales 9, leadTimeDays 4). -/
def c6AddedItem : Item :=
  { id := "i1"
    name := "Widget"
    sku := "A"
    categoryId := "c1"
    quantity := 5
    price := 10
    supplierName := "Acme"
    reorderPoint := 2
    averageDailySales := 9
    leadTimeDays := 4 }

/-- The C6 scenario state after editing the item's SKU to "B" through the
item form (derived metrics carried over unchanged). -/
def c6StateAfterEdit : AppState :=
  handleEditItem c6StateAfterAdd (itemFormEditResult c6AddedItem c6EditValues)

/-- Two items with distinct quantities for the chart counterexample: the
later item has the larger quantity. -/
def c7ItemLow : Item :=
  { sampleItem with id := "i1", name := "Low", quantity := 1 }

/-- See `c7ItemLow`. -/
def c7ItemHigh : Item :=
  { sampleItem with id := "i2", name := "High", quantity := 5 }

/-- Claim C2 fails as stated: the AI stock-alert input is built from the
items-page list filtered by quantity ≤ reorderPoint, not from the set of
out-of-stock (quantity = 0) items, and the dashboard badge counts the
quantity = 0 items, not the quantity ≤ reorderPoint ones.  Witnessed by a
single item with quantity 1 and reorder point 5. -/
theorem c2_counterexample :
    stockAlertInput [sampleItem] ≠
      (([sampleItem].filter (fun i => decide (i.quantity = 0))).map toAlertRow) ∧
    dashboardLowStockCount [sampleItem] ≠
      ([sampleItem].filter (fun i => decide (i.quantity ≤ i.reorderPoint))).length := by
  decide

/-- Claim C2, amended: the input sent to the AI stock-alert call is exactly
the set of items with quantity ≤ reorderPoint (mapped to alert rows), while
the dashboard low-stock badge counts exactly the items with quantity = 0;
the two predicates are used at the opposite sites from the claim. -/
theorem c2_amended_predicates (items : List Item) :
    (∀ r : AlertRow, r ∈ stockAlertInput items ↔
      ∃ i ∈ items, i.quantity ≤ i.reorderPoint ∧ r = toAlertRow i) ∧
    dashboardLowStockCount items = items.countP (fun i => decide (i.quantity = 0)) := by
  constructor
  · intro r
    simp only [stockAlertInput, itemsPageLowStockItems, List.mem_map,
      List.mem_filter, decide_eq_true_eq]
    constructor
    · rintro ⟨i, ⟨hi, hle⟩, rfl⟩
      exact ⟨i, hi, hle, rfl⟩
    · rintro ⟨i, hi, hle, rfl⟩
      exact ⟨i, ⟨hi, hle⟩, rfl⟩
  · simp [dashboardLowStockCount, List.countP_eq_length_filter]

/-- Claim C8: for both AI calls, an empty input list skips the external call
entirely and settles the component in the neutral empty state: no result,
no error, nothing scheduled. -/
theorem c8_empty_input_neutral {α : Type} (svc : Except String α)
    (s : AIViewState α) :
    (fetchAlert [] svc s).callMade = false ∧
    (fetchAlert [] svc s).state.result = none ∧
    (fetchAlert [] svc s).state.error = none ∧
    (fetchAlert [] svc s).scheduledRetryDelaysMs = [] ∧
    (fetchReport [] svc s).callMade = false ∧
    (fetchReport [] svc s).state.result = none ∧
    (fetchReport [] svc s).state.error = none ∧
    (fetchReport [] svc s).scheduledRetryDelaysMs = [] := by
  refine ⟨rfl, rfl, rfl, rfl, rfl, rfl, rfl, rfl⟩

/-- Claim C5 fails as stated: an explicit rate-limit signal (a message
containing '429') is a transient failure per the claim, yet the health-report
call classifies it as non-transient — it shows the generic message and
schedules no retry. -/
theorem c5_counterexample :
    containsSubstring rateLimitMessage "429" = true ∧
    (fetchReport [sampleItem] (Except.error rateLimitMessage)
        initialViewState).scheduledRetryDelaysMs = [] ∧
    (fetchReport [sampleItem] (Except.error rateLimitMessage)
        initialViewState).state.error = some healthGenericMessage ∧
    healthGenericMessage ≠ healthRetryingMessage := by
  decide

/-- Claim C5, amended: the stock-alert call classifies messages containing
'429' or '503' as transient, while the health-report call classifies only
messages containing '503' as transient.  A transient-classified failure sets
the distinct busy/retrying message and schedules exactly one retry after
5000 ms; any other failure sets the generic message and schedules no retry. -/
theorem c5_amended_retry_behavior {α : Type} (items : List Item) (msg : String)
    (s : AIViewState α) (h : items ≠ []) :
    alertTransient msg =
      (containsSubstring msg "429" || containsSubstring msg "503") ∧
    healthTransient msg = containsSubstring msg "503" ∧
    (alertTransient msg = true →
      (fetchAlert items (Except.error msg) s).scheduledRetryDelaysMs = [5000] ∧
      (fetchAlert items (Except.error msg) s).state.error = some alertRetryingMessage) ∧
    (alertTransient msg = false →
      (fetchAlert items (Except.error msg) s).scheduledRetryDelaysMs = [] ∧
      (fetchAlert items (Except.error msg) s).state.error = some alertGenericMessage) ∧
    (healthTransient msg = true →
      (fetchReport items (Except.error msg) s).scheduledRetryDelaysMs = [5000] ∧
      (fetchReport items (Except.error msg) s).state.error = some healthRetryingMessage) ∧
    (healthTransient msg = false →
      (fetchReport items (Except.error msg) s).scheduledRetryDelaysMs = [] ∧
      (fetchReport items (Except.error msg) s).state.error = some healthGenericMessage) ∧
    alertRetryingMessage ≠ alertGenericMessage ∧
    healthRetryingMessage ≠ healthGenericMessage := by
  have hne : items.isEmpty = false := by
    cases items with
    | nil => exact absurd rfl h
    | cons a t => rfl
  refine ⟨rfl, rfl, ?_, ?_, ?_, ?_, by decide, by decide⟩ <;>
    intro htr <;>
    simp [fetchAlert, fetchReport, hne, htr]

/-- Witness for `c5_amended_retry_behavior` at a concrete non-empty item
list and a concrete service-unavailable message. -/
theorem c5_amended_retry_behavior_witness :
    ([sampleItem] ≠ ([] : List Item)) ∧
    (fetchAlert [sampleItem] (Except.error "503 Service Unavailable")
        initialViewState).scheduledRetryDelaysMs = [5000] :=
  ⟨by decide,
    (((c5_amended_retry_behavior [sampleItem] "503 Service Unavailable"
      initialViewState (by decide)).2.2.1) (by decide)).1⟩

/-- Claim C6 concerns a code defect: adding an item with SKU "A" stores the
metrics derived from "A"; editing the item's SKU to "B" through the item
form carries the old metrics over, so the items-page load path (which does
not recompute) afterwards shows metrics (9, 4) while the dashboard load
path (which recomputes from the current SKU) shows (10, 5) for the same
stored item — the call sites diverge. -/
theorem c6_stale_metrics_after_sku_edit :
    c6StateAfterAdd.items = [c6AddedItem] ∧
    (itemsPageLoadItems c6StateAfterEdit.items).map
      (fun i => (i.averageDailySales, i.leadTimeDays)) = [(9, 4)] ∧
    (dashboardLoadItems c6StateAfterEdit.items).map
      (fun i => (i.averageDailySales, i.leadTimeDays)) = [(10, 5)] ∧
    itemsPageLoadItems c6StateAfterEdit.items ≠
      dashboardLoadItems c6StateAfterEdit.items := by
  decide

/-- Claim C1: the derived metrics sum the SKU's character codes into a seed,
with averageDailySales = seed % 19 + 1 in [1,19] and
leadTimeDays = seed % 9 + 2 in [2,10]; the function is pure, and the empty
SKU yields seed 0 and metrics (1, 2). -/
theorem c1_deterministic_metrics (s : String) :
    getDeterministicItemData s = getDeterministicItemData s ∧
    getDeterministicItemData s = (skuSeed s % 19 + 1, skuSeed s % 9 + 2) ∧
    1 ≤ (getDeterministicItemData s).1 ∧ (getDeterministicItemData s).1 ≤ 19 ∧
    2 ≤ (getDeterministicItemData s).2 ∧ (getDeterministicItemData s).2 ≤ 10 ∧
    skuSeed "" = 0 ∧ getDeterministicItemData "" = (1, 2) := by
  have h19 : 0 ≤ skuSeed s % 19 := Int.emod_nonneg _ (by norm_num)
  have h19' : skuSeed s % 19 < 19 := Int.emod_lt_of_pos _ (by norm_num)
  have h9 : 0 ≤ skuSeed s % 9 := Int.emod_nonneg _ (by norm_num)
  have h9' : skuSeed s % 9 < 9 := Int.emod_lt_of_pos _ (by norm_num)
  refine ⟨rfl, rfl, ?_, ?_, ?_, ?_, by decide, by decide⟩ <;>
    simp only [getDeterministicItemData] <;> omega

/-- Claim C3: selling quantity q from item I under the dialog precondition
0 < q ≤ I.quantity leaves I's entry with quantity old − q, keeps all other
items, appends exactly one SoldItem snapshotting q and I's current price,
and later item edits never touch the sold-items ledger. -/
theorem c3_sell_records_sale (s : AppState) (itemToSell : Item) (q : Int)
    (newId dateSold : String) (hmem : itemToSell ∈ s.items)
    (hq : 0 < q) (hle : q ≤ itemToSell.quantity) :
    ({ itemToSell with quantity := itemToSell.quantity - q } ∈
        (handleSellItem s itemToSell q newId dateSold).items) ∧
    (∀ i ∈ s.items, i.id ≠ itemToSell.id →
        i ∈ (handleSellItem s itemToSell q newId dateSold).items) ∧
    (handleSellItem s itemToSell q newId dateSold).items.length = s.items.length ∧
    (handleSellItem s itemToSell q newId dateSold).soldItems =
      s.soldItems ++
        [{ id := newId, itemId := itemToSell.id, name := itemToSell.name,
           sku := itemToSell.sku, quantitySold := q, price := itemToSell.price,
           dateSold := dateSold }] ∧
    (∀ upd : Item,
        (handleEditItem (handleSellItem s itemToSell q newId dateSold) upd).soldItems =
          (handleSellItem s itemToSell q newId dateSold).soldItems) := by
  refine ⟨?_, ?_, ?_, rfl, fun upd => rfl⟩
  · have h := List.mem_map_of_mem
      (f := fun item => if item.id = itemToSell.id then
        { item with quantity := item.quantity - q } else item) hmem
    simpa [handleSellItem] using h
  · intro i hi hne
    have h := List.mem_map_of_mem
      (f := fun item => if item.id = itemToSell.id then
        { item with quantity := item.quantity - q } else item) hi
    simpa [handleSellItem, if_neg hne] using h
  · simp [handleSellItem]

/-- Witness for `c3_sell_records_sale`: selling one unit of the sample item
(quantity 1) yields its entry with quantity 0. -/
theorem c3_sell_records_sale_witness :
    ({ sampleItem with quantity := sampleItem.quantity - 1 } ∈
      (handleSellItem
        { items := [sampleItem], categories := [sampleCategory], soldItems := [] }
        sampleItem 1 "t1" "2024-01-01").items) :=
  (c3_sell_records_sale
    { items := [sampleItem], categories := [sampleCategory], soldItems := [] }
    sampleItem 1 "t1" "2024-01-01" (by decide) (by decide) (by decide)).1

/-- Claim C10: deleting an item whose category is C decrements C's itemCount
by 1 floored at 0 (a count of 0 stays 0 and counts never become negative),
and categories other than C are unchanged. -/
theorem c10_delete_decrements_floored (s : AppState) (itemId : String)
    (it : Item)
    (hfind : s.items.find? (fun item => decide (item.id = itemId)) = some it) :
    (∀ c ∈ s.categories, c.id ≠ it.categoryId →
        c ∈ (handleDeleteItem s itemId).categories) ∧
    (∀ c ∈ s.categories, c.id = it.categoryId →
        { c with itemCount := max 0 (c.itemCount - 1) } ∈
          (handleDeleteItem s itemId).categories) ∧
    (∀ c ∈ s.categories, c.id = it.categoryId → 0 < c.itemCount →
        { c with itemCount := c.itemCount - 1 } ∈
          (handleDeleteItem s itemId).categories) ∧
    (∀ c ∈ s.categories, c.id = it.categoryId → c.itemCount = 0 →
        { c with itemCount := 0 } ∈ (handleDeleteItem s itemId).categories) ∧
    ((∀ c ∈ s.categories, 0 ≤ c.itemCount) →
        ∀ c ∈ (handleDeleteItem s itemId).categories, 0 ≤ c.itemCount) := by
  have hcats : (handleDeleteItem s itemId).categories =
      s.categories.map (fun cat =>
        if cat.id = it.categoryId then
          { cat with itemCount := max 0 (cat.itemCount - 1) }
        else cat) := by
    simp [handleDeleteItem, hfind]
  refine ⟨?_, ?_, ?_, ?_, ?_⟩
  · intro c hc hne
    have h := List.mem_map_of_mem
      (f := fun cat => if cat.id = it.categoryId then
        { cat with itemCount := max 0 (cat.itemCount - 1) } else cat) hc
    rw [hcats]
    simpa [if_neg hne] using h
  · intro c hc heq
    have h := List.mem_map_of_mem
      (f := fun cat => if cat.id = it.categoryId then
        { cat with itemCount := max 0 (cat.itemCount - 1) } else cat) hc
    rw [hcats]
    simpa [if_pos heq] using h
  · intro c hc heq hpos
    have h := List.mem_map_of_mem
      (f := fun cat => if cat.id = it.categoryId then
        { cat with itemCount := max 0 (cat.itemCount - 1) } else cat) hc
    have hmax : max 0 (c.itemCount - 1) = c.itemCount - 1 := by omega
    rw [hcats]
    simpa [if_pos heq, hmax] using h
  · intro c hc heq hzero
    have h := List.mem_map_of_mem
      (f := fun cat => if cat.id = it.categoryId then
        { cat with itemCount := max 0 (cat.itemCount - 1) } else cat) hc
    have hmax : max 0 (c.itemCount - 1) = 0 := by omega
    rw [hcats]
    simpa [if_pos heq, hmax] using h
  · intro hall c hc
    rw [hcats] at hc
    obtain ⟨c0, hc0, rfl⟩ := List.mem_map.mp hc
    by_cases hid : c0.id = it.categoryId
    · simp only [if_pos hid]
      exact le_max_left _ _
    · simp only [if_neg hid]
      exact hall c0 hc0

/-- Witness for `c10_delete_decrements_floored`: deleting the sample item
from a category whose itemCount is already 0 leaves the count at 0. -/
theorem c10_delete_decrements_floored_witness :
    ({ sampleCategory with itemCount := 0 } ∈
      (handleDeleteItem
        { items := [sampleItem], categories := [sampleCategory], soldItems := [] }
        "i1").categories) :=
  (c10_delete_decrements_floored
    { items := [sampleItem], categories := [sampleCategory], soldItems := [] }
    "i1" sampleItem (by decide)).2.2.2.1 sampleCategory (by decide) (by decide)
    (by decide)

/-- A left fold accumulating a mapped value equals the initial value plus
the sum of the mapped list. -/
theorem foldl_add_map_sum {α : Type} (f : α → ℚ) (l : List α) (init : ℚ) :
    l.foldl (fun acc a => acc + f a) init = init + (l.map f).sum := by
  induction l generalizing init with
  | nil => simp
  | cons a t ih => simp [ih, add_assoc]

/-- Claim C4: totalInventoryValue is the sum of quantity·price, totalRevenue
is the sum of quantitySold·price, both are invariant under permutation of
their input, both are total, and the empty list yields 0. -/
theorem c4_totals (L Lp : List Item) (S Sp : List SoldItem)
    (hL : L.Perm Lp) (hS : S.Perm Sp) :
    totalValue L = (L.map (fun i => (i.quantity : ℚ) * i.price)).sum ∧
    totalRevenue S = (S.map (fun r => (r.quantitySold : ℚ) * r.price)).sum ∧
    totalValue L = totalValue Lp ∧
    totalRevenue S = totalRevenue Sp ∧
    totalValue [] = 0 ∧ totalRevenue [] = 0 := by
  have hv : ∀ M : List Item,
      totalValue M = (M.map (fun i => (i.quantity : ℚ) * i.price)).sum := by
    intro M
    simpa [totalValue] using
      foldl_add_map_sum (fun i : Item => (i.quantity : ℚ) * i.price) M 0
  have hcomm : (fun r : SoldItem => r.price * (r.quantitySold : ℚ)) =
      fun r : SoldItem => (r.quantitySold : ℚ) * r.price :=
    funext fun r => mul_comm _ _
  have hr : ∀ T : List SoldItem,
      totalRevenue T = (T.map (fun r => (r.quantitySold : ℚ) * r.price)).sum := by
    intro T
    have h := foldl_add_map_sum (fun r : SoldItem => r.price * (r.quantitySold : ℚ)) T 0
    rw [totalRevenue, h, zero_add, hcomm]
  refine ⟨hv L, hr S, ?_, ?_, by simp [totalValue], by simp [totalRevenue]⟩
  · rw [hv L, hv Lp]
    exact ((hL.map _).sum_eq)
  · rw [hr S, hr Sp]
    exact ((hS.map _).sum_eq)

/-- Witness for `c4_totals`: the inventory value of a concrete two-item list
is unchanged by swapping the two items. -/
theorem c4_totals_witness :
    totalValue [c7ItemLow, c7ItemHigh] = totalValue [c7ItemHigh, c7ItemLow] :=
  (c4_totals [c7ItemLow, c7ItemHigh] [c7ItemHigh, c7ItemLow] [] []
    (by decide) (by decide)).2.2.1

/-- Every element of an insertion is the inserted pair or an element of the
original list. -/
theorem insertLexDesc_subset (p : Nat × Item) (s : List (Nat × Item)) :
    ∀ q ∈ insertLexDesc p s, q = p ∨ q ∈ s := by
  induction s with
  | nil =>
      intro q hq
      simp only [insertLexDesc, List.mem_singleton] at hq
      exact Or.inl hq
  | cons a t ih =>
      intro q hq
      simp only [insertLexDesc] at hq
      split_ifs at hq with hc
      · rcases List.mem_cons.mp hq with h | h
        · exact Or.inr (List.mem_cons.mpr (Or.inl h))
        · rcases ih q h with h1 | h1
          · exact Or.inl h1
          · exact Or.inr (List.mem_cons.mpr (Or.inr h1))
      · rcases List.mem_cons.mp hq with h | h
        · exact Or.inl h
        · exact Or.inr h

/-- Every element of the insertion-sorted list is an element of the input. -/
theorem foldr_insertLexDesc_subset (l : List (Nat × Item)) :
    ∀ q ∈ l.foldr insertLexDesc [], q ∈ l := by
  induction l with
  | nil => intro q hq; simpa using hq
  | cons a t ih =>
      intro q hq
      rcases insertLexDesc_subset a _ q hq with h | h
      · exact List.mem_cons.mpr (Or.inl h)
      · exact List.mem_cons.mpr (Or.inr (ih q h))

/-- When every index in the target list exceeds the inserted index, the
source insertion (quantity comparison only) and the spec insertion
(lexicographic with index tie-break) produce the same item order. -/
theorem insert_map_snd (i : Item) (k : Nat) (s : List (Nat × Item))
    (hk : ∀ q ∈ s, k < q.1) :
    insertByQuantityDesc i (s.map Prod.snd) =
      (insertLexDesc (k, i) s).map Prod.snd := by
  induction s with
  | nil => simp [insertByQuantityDesc, insertLexDesc]
  | cons a t ih =>
      have hka : k < a.1 := hk a (List.mem_cons_self a t)
      by_cases hlt : i.quantity < a.2.quantity
      · have hcond : (k, i).2.quantity < a.2.quantity ∨
            ((k, i).2.quantity = a.2.quantity ∧ a.1 < (k, i).1) := Or.inl hlt
        simp only [List.map_cons, insertByQuantityDesc, insertLexDesc,
          if_pos hlt, if_pos hcond, List.map_cons]
        rw [ih (fun q hq => hk q (List.mem_cons_of_mem a hq))]
      · have hcond : ¬ ((k, i).2.quantity < a.2.quantity ∨
            ((k, i).2.quantity = a.2.quantity ∧ a.1 < (k, i).1)) := by
          push_neg
          exact ⟨le_of_not_lt hlt, fun _ => by omega⟩
        simp only [List.map_cons, insertByQuantityDesc, insertLexDesc,
          if_neg hlt, if_neg hcond, List.map_cons]

/-- The source stable sort of the items equals (after dropping indices) the
spec-modelled lexicographic sort of the index-tagged items, for any starting
index. -/
theorem sort_enumFrom_eq (l : List Item) :
    ∀ n : Nat,
      l.foldr insertByQuantityDesc [] =
        ((List.enumFrom n l).foldr insertLexDesc []).map Prod.snd := by
  induction l with
  | nil => intro n; simp
  | cons i t ih =>
      intro n
      have hS : ∀ q ∈ (List.enumFrom (n + 1) t).foldr insertLexDesc [],
          n < q.1 := by
        intro q hq
        have hmem : q ∈ List.enumFrom (n + 1) t :=
          foldr_insertLexDesc_subset _ q hq
        rcases q with ⟨idx, x⟩
        have := (List.mem_enumFrom hmem).1
        omega
      calc (i :: t).foldr insertByQuantityDesc []
          = insertByQuantityDesc i (t.foldr insertByQuantityDesc []) := rfl
        _ = insertByQuantityDesc i
              (((List.enumFrom (n + 1) t).foldr insertLexDesc []).map Prod.snd) := by
            rw [ih (n + 1)]
        _ = (insertLexDesc (n, i)
              ((List.enumFrom (n + 1) t).foldr insertLexDesc [])).map Prod.snd := by
            exact insert_map_snd i n _ hS
        _ = ((List.enumFrom n (i :: t)).foldr insertLexDesc []).map Prod.snd := by
            rfl

/-- Claim C7 fails as stated: the dashboard stock chart charts the first
ten items in insertion order with no sorting, so with a low-quantity item
inserted before a high-quantity one the chart data is not the stable
descending-by-quantity selection. -/
theorem c7_counterexample :
    stockChartData [c7ItemLow, c7ItemHigh] ≠
      (topNByQuantity [c7ItemLow, c7ItemHigh] 10).map
        (fun i => (i.name, i.quantity)) := by
  decide

/-- Claim C7, amended: the consolidated report's top-10 chart data is the
stable sort descending by quantity (ties broken by original insertion
order) truncated to ten, whereas the dashboard stock chart takes the first
ten items in insertion order without sorting. -/
theorem c7_amended_chart_selection (items : List Item) :
    consolidatedChartData items = topNByQuantity items 10 ∧
    stockChartData items = (items.take 10).map (fun i => (i.name, i.quantity)) := by
  refine ⟨?_, rfl⟩
  unfold consolidatedChartData topNByQuantity sortByQuantityDesc
  rw [show items.enum = List.enumFrom 0 items from rfl]
  rw [sort_enumFrom_eq items 0]

/-- Claim C9 fails as stated: exporting the consolidated workbook with all
three collections empty does not produce five empty sheets — the Sold Items
sheet still carries the appended total-revenue summary row. -/
theorem c9_counterexample :
    (exportConsolidatedExcel [] [] []).map Prod.snd ≠ [[], [], [], [], []] := by
  decide

/-- Claim C9, amended: the consolidated workbook has exactly the five sheets
Low Stock Items, Full Inventory, In-Stock Items, Sold Items and Categories
in this order; the Sold Items sheet is the data sheet with one trailing
summary row whose fifth column carries the total revenue; with all three
collections empty, the four other sheets are empty and the Sold Items sheet
consists of just the summary row, with no error. -/
theorem c9_amended_workbook (items : List Item) (categories : List Category)
    (soldItems : List SoldItem) :
    (exportConsolidatedExcel items categories soldItems).map Prod.fst =
      ["Low Stock Items", "Full Inventory", "In-Stock Items", "Sold Items",
       "Categories"] ∧
    (exportConsolidatedExcel items categories soldItems).get? 3 =
      some ("Sold Items",
        jsonToSheet (soldItems.map soldRecord) ++ [soldItemsSummaryRow soldItems]) ∧
    (jsonToSheet (soldItems.map soldRecord) ++
        [soldItemsSummaryRow soldItems]).getLast? =
      some (soldItemsSummaryRow soldItems) ∧
    (soldItemsSummaryRow soldItems).get? 4 =
      some (Cell.num (totalRevenue soldItems)) ∧
    ((jsonToSheet (soldItems.map soldRecord) ++
        [soldItemsSummaryRow soldItems]).take
        (jsonToSheet (soldItems.map soldRecord)).length) =
      jsonToSheet (soldItems.map soldRecord) ∧
    (exportConsolidatedExcel [] [] []).map Prod.snd =
      [[], [], [], [soldItemsSummaryRow []], []] := by
  refine ⟨rfl, rfl, List.getLast?_concat _, rfl, List.take_left _ _, by decide⟩

end Inventory
